/-
Verification of the change-reconciliation and message-dispatch subsystem of
the pydantic-rag-agents repository, as a shallow embedding in Lean 4.

Each definition below is translated from one source function:
  - MessageControlPoint.publish / start      (src/agents/message_control_point.py)
  - chunk_text / insert_chunk / get_embedding (src/agents/crawl_pydantic_ai_docs.py)
  - DriveWatcher.check_for_changes / handle_file_processed / start
                                             (src/agents/gdrive_watcher.py)
  - preprocess_query / search_documents / generate_response / run
                                             (src/agents/pydantic_ai_expert.py)

External collaborators (Google Drive listing, OpenAI embedding and chat,
Supabase writes and RPC) are passed in as function parameters returning
`Except`; the embedding records the observable effects (messages enqueued,
store writes issued, embedding requests made, state snapshots saved) so that
the theorems can speak about them.  Embedding vectors are `List Int` rather
than `List Float`: no arithmetic is ever performed on them, they are opaque
payloads whose only inspected property is emptiness (Python truthiness).
-/
import Mathlib

set_option maxRecDepth 4000

/-- A file record as returned by the Drive listing call
(`fields="files(id, name, mimeType, modifiedTime)"`). -/
structure FileRecord where
  id : String
  name : String
  mimeType : String
  modifiedTime : String
  deriving DecidableEq, Repr

/-- Embedding vectors; stand-in for Python `List[float]` (never computed on,
only checked for truthiness / passed through). -/
abbrev Vec : Type := List Int

/-- The `ProcessedChunk` dataclass from crawl_pydantic_ai_docs.py. -/
structure ProcessedChunk where
  url : String
  title : String
  summary : String
  content : String
  embedding : Option Vec := none
  deriving DecidableEq, Repr

/-- The record dict written by `insert_chunk` to the `site_pages` table. -/
structure SiteRecord where
  url : String
  title : String
  summary : String
  content : String
  embedding : Option Vec
  sourceTag : String
  deriving DecidableEq, Repr

/-- Python truthiness of an `Optional[List[float]]` value:
`None` and `[]` are falsy, a non-empty list is truthy. -/
def pyTruthyVec : Option Vec → Bool
  | some (_ :: _) => true
  | _ => false

/- ------------------------------------------------------------------
MessageControlPoint (src/agents/message_control_point.py)
------------------------------------------------------------------ -/

/-- Model of `MessageControlPoint.publish(topic, message)`: enqueue `(topic, message)`
only when `topic in self.handlers` (membership in the handler table's key
set); otherwise the queue is left unchanged and no error is raised. -/
def mcpPublish (handlerKeys : List String) (queue : List (String × α))
    (topic : String) (message : α) : List (String × α) :=
  if topic ∈ handlerKeys then queue ++ [(topic, message)] else queue

/-- What happened to one dequeued message inside `MessageControlPoint.start`:
either the registered handler was invoked (its `Except` outcome recorded —
an `error` is the caught-and-logged exception) or no handler was registered
and the message was dropped after the defensive re-check. -/
inductive Delivery (α : Type) where
  | handled (topic : String) (message : α) (result : Except String Unit)
  | dropped (topic : String) (message : α)

/-- One iteration of the `while True` body of `MessageControlPoint.start`:
dequeue, re-check registration, invoke the handler inside try/except. -/
def mcpStep (handlers : List (String × (α → Except String Unit)))
    (m : String × α) : Delivery α :=
  match handlers.lookup m.1 with
  | some h => .handled m.1 m.2 (h m.2)
  | none => .dropped m.1 m.2

/-- The delivery log produced by `MessageControlPoint.start` over the
contents of its queue: every message is dequeued in FIFO order and handled
by `mcpStep`; a handler exception is caught inside the loop body, so the
recursion (the loop) always continues to the next message. -/
def mcpStartDeliveries (handlers : List (String × (α → Except String Unit))) :
    List (String × α) → List (Delivery α)
  | [] => []
  | m :: rest => mcpStep handlers m :: mcpStartDeliveries handlers rest

/-- Control-flow model of `MessageControlPoint.start`, for termination
questions only: the method is `while True` around a blocking `queue.get()`.
Given `fuel` loop iterations it returns `some ()` only if the loop exits
(it has no `break` or `return`, so it never does): an empty queue blocks in
`queue.get()` forever, a non-empty queue consumes one message and loops. -/
def mcpStartSteps : Nat → List (String × α) → Option Unit
  | 0, _ => none
  | _ + 1, [] => none
  | n + 1, _ :: rest => mcpStartSteps n rest

/- ------------------------------------------------------------------
ChunkSplitter: chunk_text (src/agents/crawl_pydantic_ai_docs.py)
------------------------------------------------------------------ -/

/-- Accumulating splitter behind `splitWords`; `acc` is the current word
being read, in reverse character order. -/
def splitWordsAux : List Char → List Char → List String
  | [], [] => []
  | [], acc => [String.mk acc.reverse]
  | c :: cs, acc =>
    if c.isWhitespace then
      match acc with
      | [] => splitWordsAux cs []
      | _ => String.mk acc.reverse :: splitWordsAux cs []
    else
      splitWordsAux cs (c :: acc)

/-- Python `text.split()` (no separator argument): split on runs of
whitespace, with no empty words and no leading/trailing empties. -/
def splitWords (text : String) : List String :=
  splitWordsAux text.data []

/-- Python `" ".join(words)`. -/
def joinSpace (words : List String) : String :=
  String.intercalate " " words

/-- Python `range(0, n, step)` for `step > 0`: the starts
`0, step, 2*step, …` strictly below `n`; `(n + step - 1) / step` of them. -/
def pyRange (n step : Nat) : List Nat :=
  (List.range ((n + step - 1) / step)).map (fun k => k * step)

/-- The chunk appended by one iteration of `chunk_text`'s loop: `k` chunks
already appended (so this one is ordinal `k + 1`), window
`words[i : i + chunkSize]`. -/
def chunkAt (chunkSize : Nat) (words : List String) (url title : String)
    (k i : Nat) : ProcessedChunk :=
  { url := url
    title := title
    summary := "Part " ++ toString (k + 1) ++ " of " ++ title
    content := joinSpace ((words.drop i).take chunkSize)
    embedding := none }

/-- Loop of `chunk_text`: for each start index `i` (with `k` chunks already
appended) append the chunk `chunkAt … k i`. -/
def chunkTextGo (chunkSize : Nat) (words : List String) (url title : String) :
    Nat → List Nat → List ProcessedChunk
  | _, [] => []
  | k, i :: rest =>
    chunkAt chunkSize words url title k i
      :: chunkTextGo chunkSize words url title (k + 1) rest

/-- The splitting algorithm of `chunk_text` with the two local constants
(`chunk_size`, `overlap`) abstracted into parameters, as the spec's test
scenarios instantiate them: iterate `i` over
`range(0, len(words), chunk_size - overlap)` taking `words[i:i+chunk_size]`. -/
def chunkTextAux (chunkSize overlap : Nat) (words : List String)
    (url title : String) : List ProcessedChunk :=
  chunkTextGo chunkSize words url title 0
    (pyRange words.length (chunkSize - overlap))

/-- Model of `chunk_text(text, url, title)` as in the source, where
`chunk_size = 1000` and `overlap = 100`. -/
def chunk_text (text url title : String) : List ProcessedChunk :=
  chunkTextAux 1000 100 (splitWords text) url title

/- ------------------------------------------------------------------
ChunkStore: get_embedding / insert_chunk (src/agents/crawl_pydantic_ai_docs.py)
------------------------------------------------------------------ -/

/-- Observable outcome of one `insert_chunk` call: which texts were sent to
the embedding collaborator, which records were written to the store, and
whether the call returned normally or propagated an exception. -/
structure InsertResult where
  embedCalls : List String
  writes : List SiteRecord
  outcome : Except String Unit

/-- The `data` dict built inside `insert_chunk` (with `source` tag). -/
def siteRecordOf (c : ProcessedChunk) : SiteRecord :=
  { url := c.url, title := c.title, summary := c.summary, content := c.content,
    embedding := c.embedding, sourceTag := "pydantic_ai_docs" }

/-- Model of `insert_chunk(chunk)`: when `not chunk.embedding` (Python truthiness:
`None` or the empty list) request an embedding of `chunk.content` from the
collaborator `emb` (`get_embedding`); a collaborator failure propagates and
no store write happens; otherwise exactly one record is written. -/
def insert_chunk (emb : String → Except String Vec) (chunk : ProcessedChunk) :
    InsertResult :=
  if pyTruthyVec chunk.embedding then
    { embedCalls := [], writes := [siteRecordOf chunk], outcome := .ok () }
  else
    match emb chunk.content with
    | .error e => { embedCalls := [chunk.content], writes := [], outcome := .error e }
    | .ok v =>
      { embedCalls := [chunk.content]
        writes := [siteRecordOf { chunk with embedding := some v }]
        outcome := .ok () }

/- ------------------------------------------------------------------
ChangeReconciler: DriveWatcher (src/agents/gdrive_watcher.py)
------------------------------------------------------------------ -/

/-- The watcher's persisted state: the `processed_files` dict,
`file_id -> last stored marker string`, as an insertion-ordered
association list (Python dict semantics). -/
abbrev WatcherState : Type := List (String × String)

/-- Python `d[k] = v` on an insertion-ordered dict: overwrite in place when
the key is present, append otherwise. -/
def dictInsert (st : WatcherState) (k v : String) : WatcherState :=
  if st.any (fun p => p.1 = k) then
    st.map (fun p => if p.1 = k then (k, v) else p)
  else
    st ++ [(k, v)]

/-- An opaque handle to the Drive download service built by `build(...)`. -/
abbrev Service : Type := Nat

/-- Payload of the `"new_file"` message published by `check_for_changes`:
the service handle and the file descriptor. -/
structure NewFileMsg where
  service : Service
  file : FileRecord
  deriving DecidableEq, Repr

/-- The key set of the `handlers` dict the `DriveWatcher.__init__` passes to
its own `MessageControlPoint` (the only MCP the watcher ever publishes to). -/
def watcherHandlerTopics : List String :=
  ["file_processed", "file_error"]

/-- The condition under which `check_for_changes` treats a listed file as
new or changed: `file_id not in self.processed_files or
self.processed_files[file_id] != modified_time`. -/
def isNewOrChanged (st : WatcherState) (f : FileRecord) : Bool :=
  match st.lookup f.id with
  | none => true
  | some m => decide (m ≠ f.modifiedTime)

/-- Everything observable about one `check_for_changes` call: the in-memory
`processed_files` afterwards, the MCP queue afterwards, the `publish` calls
that were made, and how many times `save_processed_files` wrote the
persisted state file. -/
structure CheckResult where
  state : WatcherState
  queue : List (String × NewFileMsg)
  published : List (String × NewFileMsg)
  saves : Nat

/-- Model of `DriveWatcher.check_for_changes`.  The whole body sits in a
`try/except Exception` that only prints, so a failing listing call makes
the method return normally with nothing mutated and nothing saved.  On a
successful listing it publishes `("new_file", {service, file})` on the
watcher's own MCP for every new/changed file in listing order (`mcpPublish`
drops the message unless the topic is registered there), then deletes every
stored id absent from the listing, saving the state file once per deletion. -/
def check_for_changes (listing : Except String (List FileRecord))
    (service : Service) (queue0 : List (String × NewFileMsg))
    (st : WatcherState) : CheckResult :=
  match listing with
  | .error _ => { state := st, queue := queue0, published := [], saves := 0 }
  | .ok files =>
    let published := (files.filter (fun f => isNewOrChanged st f)).map
      (fun f => ("new_file", NewFileMsg.mk service f))
    let queue := published.foldl
      (fun q m => mcpPublish watcherHandlerTopics q m.1 m.2) queue0
    let deleted := st.filter (fun p => ¬ files.any (fun f => f.id = p.1))
    { state := st.filter (fun p => files.any (fun f => f.id = p.1))
      queue := queue
      published := published
      saves := deleted.length }

/-- Model of `DriveWatcher.handle_file_processed(data)`: store the CURRENT time
(`datetime.now(timezone.utc).isoformat()`, passed here as `now`) under
`data["file_id"]` and save the state file. -/
def handle_file_processed (now : String) (fileId : String)
    (st : WatcherState) : WatcherState :=
  dictInsert st fileId now

/-- Control-flow model of `DriveWatcher.start`: it first awaits
`self.mcp.start()` and only afterwards enters the polling loop that calls
`check_for_changes`.  The result counts how many `check_for_changes` calls
were reached within `fuel` steps: one polling iteration would require
`mcpStartSteps` to have returned `some ()` first. -/
def driveWatcherStart (fuel : Nat) (queue : List (String × NewFileMsg)) : Nat :=
  match mcpStartSteps fuel queue with
  | some _ => 1
  | none => 0

/- ------------------------------------------------------------------
RetrievalPipeline (src/agents/pydantic_ai_expert.py)
------------------------------------------------------------------ -/

/-- One retrieved document row as used by `generate_response`
(`doc['url']`, `doc['content']`). -/
structure Doc where
  url : String
  content : String
  deriving DecidableEq, Repr

/-- Model of `preprocess_query(query)`: ask the chat collaborator to extract
concepts, then return `f"{query} {concepts}"`; a collaborator failure
propagates. -/
def preprocess_query (chat : String → Except String String) (query : String) :
    Except String String :=
  match chat query with
  | .error e => .error e
  | .ok concepts => .ok (query ++ " " ++ concepts)

/-- Model of `search_documents(query, source)`: embed the query, then call the
`match_site_pages` RPC with `match_count = 5` and, only when `source` is
truthy, the source filter; failures of either collaborator propagate. -/
def search_documents (embed : String → Except String Vec)
    (rpc : Vec → Nat → Option String → Except String (List Doc))
    (query : String) (src : Option String) : Except String (List Doc) :=
  match embed query with
  | .error e => .error e
  | .ok v => rpc v 5 src

/-- The context block built by `generate_response`:
`"\n\n".join(f"Source: {doc['url']}\n{doc['content']}")`. -/
def contextBlock (ctx : List Doc) : String :=
  String.intercalate "\n\n" (ctx.map (fun d => "Source: " ++ d.url ++ "\n" ++ d.content))

/-- Model of `generate_response(query, context)`: one chat-completion call on the
context block and the question; a collaborator failure propagates. -/
def generate_response (chat : String → Except String String) (query : String)
    (ctx : List Doc) : Except String String :=
  chat ("Context:\n" ++ contextBlock ctx ++ "\n\nQuestion: " ++ query)

/-- The body of `run`'s `try` block: preprocess, then search with
`source = "pydantic_ai_docs"` when `context_type == "docs"` else `None`,
then generate.  An exception in any stage escapes this pipeline. -/
def runPipeline (extractChat : String → Except String String)
    (embed : String → Except String Vec)
    (rpc : Vec → Nat → Option String → Except String (List Doc))
    (genChat : String → Except String String)
    (query contextType : String) : Except String String :=
  match preprocess_query extractChat query with
  | .error e => .error e
  | .ok enhanced =>
    let src := if contextType = "docs" then some "pydantic_ai_docs" else none
    match search_documents embed rpc enhanced src with
    | .error e => .error e
    | .ok ctx => generate_response genChat query ctx

/-- Model of `run(query, context_type)`: the pipeline inside
`try/except Exception as e: return f"Error processing query: {str(e)}"` —
always returns a plain string. -/
def run (extractChat : String → Except String String)
    (embed : String → Except String Vec)
    (rpc : Vec → Nat → Option String → Except String (List Doc))
    (genChat : String → Except String String)
    (query contextType : String) : String :=
  match runPipeline extractChat embed rpc genChat query contextType with
  | .ok r => r
  | .error e => "Error processing query: " ++ e

/- ------------------------------------------------------------------
Helper lemmas
------------------------------------------------------------------ -/

/-- The router's delivery log distributes over queue concatenation. -/
theorem mcpStartDeliveries_append
    (handlers : List (String × (α → Except String Unit)))
    (a b : List (String × α)) :
    mcpStartDeliveries handlers (a ++ b) =
      mcpStartDeliveries handlers a ++ mcpStartDeliveries handlers b := by
  induction a with
  | nil => rfl
  | cons m rest ih => simp [mcpStartDeliveries, ih]

/-- The router handles every message in its queue: the delivery log has one
entry per queued message. -/
theorem mcpStartDeliveries_length
    (handlers : List (String × (α → Except String Unit)))
    (q : List (String × α)) :
    (mcpStartDeliveries handlers q).length = q.length := by
  induction q with
  | nil => rfl
  | cons m rest ih => simp [mcpStartDeliveries, ih]

/- ------------------------------------------------------------------
C5: publish enqueues iff a handler is registered
------------------------------------------------------------------ -/

/-- C5: for every topic and payload, `publish(topic, payload)` enqueues the
pair (appends it to the queue) if and only if a handler is currently
registered for that topic; publishing to an unregistered topic leaves the
queue unchanged and raises no error (the function is total). -/
theorem publish_enqueues_iff_registered (handlerKeys : List String)
    (queue : List (String × α)) (topic : String) (message : α) :
    (mcpPublish handlerKeys queue topic message = queue ++ [(topic, message)]
      ↔ topic ∈ handlerKeys)
    ∧ (topic ∉ handlerKeys → mcpPublish handlerKeys queue topic message = queue) := by
  refine ⟨⟨fun h => ?_, fun hmem => ?_⟩, fun hmem => ?_⟩
  · by_contra hmem
    rw [mcpPublish, if_neg hmem] at h
    have := congrArg List.length h
    simp at this
  · rw [mcpPublish, if_pos hmem]
  · rw [mcpPublish, if_neg hmem]

/-- Witness for C5, at the spec's own scenario: publishing to
`"unregistered_topic"` with no handlers registered leaves an empty queue
empty. -/
theorem publish_enqueues_iff_registered_witness :
    mcpPublish ([] : List String) ([] : List (String × Nat)) "unregistered_topic" 0 = [] :=
  (publish_enqueues_iff_registered [] [] "unregistered_topic" 0).2 (by simp)

/- ------------------------------------------------------------------
C4: per-message failure isolation in the router's run loop
------------------------------------------------------------------ -/

/-- C4: if the handler for one dequeued message `x` raises, the run loop
catches the exception and does not terminate: for every queue of the shape
`pre ++ [x, y] ++ post` where `x`'s registered handler fails and `y` has a
registered handler, `y`'s handler is still invoked (the delivery log entry
right after `x` is `handled` for `y`), and the loop goes on to process every
queued message (one log entry per message). -/
theorem handler_failure_isolated
    (handlers : List (String × (α → Except String Unit)))
    (pre post : List (String × α)) (x y : String × α)
    (hx hy : α → Except String Unit) (e : String)
    (hlx : handlers.lookup x.1 = some hx) (hfail : hx x.2 = .error e)
    (hly : handlers.lookup y.1 = some hy) :
    (mcpStartDeliveries handlers (pre ++ x :: y :: post)).get? (pre.length + 1)
      = some (.handled y.1 y.2 (hy y.2))
    ∧ (mcpStartDeliveries handlers (pre ++ x :: y :: post)).length
      = pre.length + 2 + post.length := by
  have hlen : (mcpStartDeliveries handlers pre).length = pre.length :=
    mcpStartDeliveries_length handlers pre
  constructor
  · rw [mcpStartDeliveries_append,
      List.get?_append_right (by rw [hlen]; omega), hlen]
    have h1 : pre.length + 1 - pre.length = 1 := by omega
    rw [h1]
    simp [mcpStartDeliveries, mcpStep, hly]
  · rw [mcpStartDeliveries_length]
    simp [List.length_append]
    omega

/-- Witness for C4: a concrete queue whose first message's handler raises
(`"boom"`); the second message is nevertheless delivered to its handler. -/
theorem handler_failure_isolated_witness :
    (mcpStartDeliveries
        [("x", fun _ => Except.error "boom"), ("y", fun (_ : Nat) => Except.ok ())]
        [("x", 0), ("y", 1)]).get? 1
      = some (.handled "y" 1 (Except.ok ()))
    ∧ (mcpStartDeliveries
        [("x", fun _ => Except.error "boom"), ("y", fun (_ : Nat) => Except.ok ())]
        [("x", 0), ("y", 1)]).length = 2 :=
  handler_failure_isolated
    [("x", fun _ => Except.error "boom"), ("y", fun (_ : Nat) => Except.ok ())]
    [] [] ("x", 0) ("y", 1) _ _ "boom" rfl rfl rfl

/- ------------------------------------------------------------------
C10: DriveWatcher.start never reaches check_for_changes
------------------------------------------------------------------ -/

/-- The MCP run loop never returns: `while True` over a blocking
`queue.get()` with no `break` or `return`. -/
theorem mcpStartSteps_eq_none (fuel : Nat) (q : List (String × α)) :
    mcpStartSteps fuel q = none := by
  induction fuel generalizing q with
  | zero => rfl
  | succ n ih =>
    cases q with
    | nil => rfl
    | cons m rest => simpa [mcpStartSteps] using ih rest

/-- C10: in every execution of `DriveWatcher.start` (any number of steps,
any queue contents), control never reaches `check_for_changes`: `start`
first awaits the MCP message loop, which never returns, so the polling loop
after it is unreachable and zero reconciliation passes are performed. -/
theorem start_never_reaches_check_for_changes (fuel : Nat)
    (queue : List (String × NewFileMsg)) :
    driveWatcherStart fuel queue = 0 := by
  rw [driveWatcherStart, mcpStartSteps_eq_none]

/- ------------------------------------------------------------------
C8: listing failure mutates nothing
------------------------------------------------------------------ -/

/-- C8: when the remote listing call fails, `check_for_changes` returns
normally (the surrounding `try/except` only prints): the in-memory
`processed_files` map is exactly the prior state, the MCP queue is
untouched, nothing is published, and `save_processed_files` is never
called, so the persisted state file is untouched as well. -/
theorem listing_failure_mutates_nothing (e : String) (service : Service)
    (queue0 : List (String × NewFileMsg)) (st : WatcherState) :
    check_for_changes (Except.error e) service queue0 st
      = { state := st, queue := queue0, published := [], saves := 0 } := rfl

/- ------------------------------------------------------------------
C1: the "new_file" message is published but never enqueued (code bug)
------------------------------------------------------------------ -/

/-- Calling `publish` on the watcher's own MCP drops a `"new_file"` message: the
topic is not among the registered handler keys. -/
theorem publish_new_file_drops (q : List (String × NewFileMsg)) (m : NewFileMsg) :
    mcpPublish watcherHandlerTopics q "new_file" m = q := by
  rw [mcpPublish, if_neg (by decide)]

/-- Publishing any run of `"new_file"` messages leaves the queue as it was. -/
theorem foldl_publish_new_file (l : List FileRecord) (service : Service)
    (q0 : List (String × NewFileMsg)) :
    ((l.map (fun f => ("new_file", NewFileMsg.mk service f))).foldl
       (fun q m => mcpPublish watcherHandlerTopics q m.1 m.2) q0) = q0 := by
  induction l generalizing q0 with
  | nil => rfl
  | cons f rest ih =>
    simp only [List.map_cons, List.foldl_cons]
    rw [publish_new_file_drops]
    exact ih q0

/-- C1 (code bug): `check_for_changes` does call
`publish("new_file", {service, file})` for a new/changed file (shown at the
concrete input: empty prior state, a one-file listing), but `"new_file"` is
not among the topics registered on the watcher's MCP (`handlers` holds only
`file_processed` and `file_error`), so for every listing, state and prior
queue the pass leaves the router's queue unchanged — the message never
reaches any handler. -/
theorem new_file_message_never_enqueued
    (listing : Except String (List FileRecord)) (service : Service)
    (queue0 : List (String × NewFileMsg)) (st : WatcherState) :
    (check_for_changes listing service queue0 st).queue = queue0
    ∧ "new_file" ∉ watcherHandlerTopics
    ∧ (check_for_changes
        (Except.ok [FileRecord.mk "A" "a.csv" "text/csv" "t1"]) 7 [] []).published
      = [("new_file", NewFileMsg.mk 7 (FileRecord.mk "A" "a.csv" "text/csv" "t1"))] := by
  refine ⟨?_, by decide, rfl⟩
  cases listing with
  | error e => rfl
  | ok files =>
    exact foldl_publish_new_file (files.filter (fun f => isNewOrChanged st f))
      service queue0

/- ------------------------------------------------------------------
C2: the diff scenario, and the marker actually stored (code bug)
------------------------------------------------------------------ -/

/-- C2 (code bug): on prior state `{A: "t1", B: "t2"}` and listing
`[{A,"t1"}, {C,"t3"}]` the pass classifies A as unchanged (not dispatched),
C as new (dispatched) and B as deleted (removed, one save) — but when C's
processing is confirmed, `handle_file_processed` stores the confirmation
wall-clock time, not the listing marker `"t3"`, so the final WatcherState is
`{A: "t1", C: <now>}`, differs from the claimed `{A: "t1", C: "t3"}`, and C
is classified as changed again on the very next pass. -/
theorem reconciliation_stores_wallclock_not_marker :
    (check_for_changes
        (Except.ok [FileRecord.mk "A" "a" "m" "t1", FileRecord.mk "C" "c" "m" "t3"])
        7 [] [("A", "t1"), ("B", "t2")]).published
      = [("new_file", NewFileMsg.mk 7 (FileRecord.mk "C" "c" "m" "t3"))]
    ∧ (check_for_changes
        (Except.ok [FileRecord.mk "A" "a" "m" "t1", FileRecord.mk "C" "c" "m" "t3"])
        7 [] [("A", "t1"), ("B", "t2")]).state = [("A", "t1")]
    ∧ (check_for_changes
        (Except.ok [FileRecord.mk "A" "a" "m" "t1", FileRecord.mk "C" "c" "m" "t3"])
        7 [] [("A", "t1"), ("B", "t2")]).saves = 1
    ∧ handle_file_processed "2025-06-01T00:00:00+00:00" "C" [("A", "t1")]
      = [("A", "t1"), ("C", "2025-06-01T00:00:00+00:00")]
    ∧ (handle_file_processed "2025-06-01T00:00:00+00:00" "C" [("A", "t1")]).lookup "C"
      ≠ some "t3"
    ∧ isNewOrChanged (handle_file_processed "2025-06-01T00:00:00+00:00" "C" [("A", "t1")])
        (FileRecord.mk "C" "c" "m" "t3") = true := by
  refine ⟨rfl, rfl, rfl, rfl, by decide, by decide⟩

/- ------------------------------------------------------------------
C9: run converts every pipeline failure into an error string
------------------------------------------------------------------ -/

/-- C9: `run` always returns a plain string: when any stage of the pipeline
(preprocess, search, or generate) raises, the outermost `except` converts
the exception into the single human-readable string
`"Error processing query: " ++ e`; when the pipeline succeeds, the
generated answer is returned as-is.  No exception propagates past `run`
(the function is total with result type `String`). -/
theorem run_returns_error_string (extractChat : String → Except String String)
    (embed : String → Except String Vec)
    (rpc : Vec → Nat → Option String → Except String (List Doc))
    (genChat : String → Except String String) (query contextType : String) :
    (∀ e, runPipeline extractChat embed rpc genChat query contextType = .error e →
      run extractChat embed rpc genChat query contextType
        = "Error processing query: " ++ e)
    ∧ (∀ r, runPipeline extractChat embed rpc genChat query contextType = .ok r →
      run extractChat embed rpc genChat query contextType = r) := by
  constructor <;> intro v h <;> unfold run <;> rw [h]

/-- Witness for C9: a failing preprocess stage (`"LLM down"`) surfaces as
the error string. -/
theorem run_returns_error_string_witness :
    run (fun _ => Except.error "LLM down") (fun _ => Except.ok [])
      (fun _ _ _ => Except.ok []) (fun _ => Except.ok "ans") "q" "docs"
      = "Error processing query: LLM down" :=
  (run_returns_error_string (fun _ => Except.error "LLM down") (fun _ => Except.ok [])
    (fun _ _ _ => Except.ok []) (fun _ => Except.ok "ans") "q" "docs").1 "LLM down" rfl

/- ------------------------------------------------------------------
Chunking lemmas
------------------------------------------------------------------ -/

/-- The chunk loop produces one chunk per start index. -/
theorem chunkTextGo_length (chunkSize : Nat) (words : List String)
    (url title : String) (k : Nat) (l : List Nat) :
    (chunkTextGo chunkSize words url title k l).length = l.length := by
  induction l generalizing k with
  | nil => rfl
  | cons i rest ih => simp [chunkTextGo, ih]

/-- Element `j` of the chunk loop's output is the chunk built from start
index `l[j]` at ordinal position `k + j`. -/
theorem chunkTextGo_get? (chunkSize : Nat) (words : List String)
    (url title : String) (l : List Nat) (k j : Nat) :
    (chunkTextGo chunkSize words url title k l).get? j
      = (l.get? j).map (chunkAt chunkSize words url title (k + j)) := by
  induction l generalizing k j with
  | nil => simp [chunkTextGo]
  | cons i rest ih =>
    cases j with
    | zero => simp [chunkTextGo]
    | succ j =>
      have h : k + 1 + j = k + (j + 1) := by omega
      simp only [chunkTextGo, List.get?_cons_succ]
      rw [ih (k + 1) j, h]

/-- Length of the model of `range(0, n, step)`. -/
theorem pyRange_length (n step : Nat) :
    (pyRange n step).length = (n + step - 1) / step := by
  simp [pyRange]

/-- Element `j` of the model of `range(0, n, step)`. -/
theorem pyRange_get? (n step j : Nat) :
    (pyRange n step).get? j
      = if j < (n + step - 1) / step then some (j * step) else none := by
  rw [pyRange, List.get?_map]
  by_cases h : j < (n + step - 1) / step
  · rw [List.get?_range h, if_pos h]
    rfl
  · rw [List.get?_eq_none.2 (by simpa [List.length_range] using Nat.le_of_not_lt h),
      if_neg h]
    rfl

/-- Characters of `String.intercalate.go`. -/
theorem intercalate_go_data (s : String) (l : List String) (acc : String) :
    (String.intercalate.go acc s l).data
      = acc.data ++ (l.map (fun a => s.data ++ a.data)).join := by
  induction l generalizing acc with
  | nil => simp [String.intercalate.go]
  | cons a as ih => simp [String.intercalate.go, ih]

/-- Characters of `joinSpace` on a non-empty word list. -/
theorem joinSpace_data_cons (a : String) (l : List String) :
    (joinSpace (a :: l)).data = a.data ++ (l.map (fun b => ' ' :: b.data)).join := by
  show (String.intercalate.go a " " l).data = _
  rw [intercalate_go_data]
  rfl

/-- Splitting the character run `w w … w` recovers the `n + 1` words. -/
theorem splitWordsAux_w_run (n : Nat) :
    splitWordsAux ('w' :: (List.replicate n [' ', 'w']).join) []
      = List.replicate (n + 1) "w" := by
  induction n with
  | zero => rfl
  | succ n ih =>
    show "w" :: splitWordsAux ('w' :: (List.replicate n [' ', 'w']).join) []
        = "w" :: List.replicate (n + 1) "w"
    rw [ih]

/-- The function `splitWords` is a left inverse of `joinSpace` on repeated one-char words. -/
theorem splitWords_joinSpace_replicate (n : Nat) :
    splitWords (joinSpace (List.replicate (n + 1) "w")) = List.replicate (n + 1) "w" := by
  have hdata : (joinSpace (List.replicate (n + 1) "w")).data
      = 'w' :: (List.replicate n [' ', 'w']).join := by
    rw [List.replicate_succ, joinSpace_data_cons, List.map_replicate]
    rfl
  rw [splitWords, hdata, splitWordsAux_w_run]

/-- Number of chunks `chunk_text` produces: one per start position,
`ceil(tokens / 900)` of them. -/
theorem chunk_text_length_eq (text url title : String) :
    (chunk_text text url title).length = ((splitWords text).length + 899) / 900 := by
  have hsub : ∀ m : Nat, m + (1000 - 100) - 1 = m + 899 := fun m => by omega
  rw [chunk_text, chunkTextAux, chunkTextGo_length, pyRange_length, hsub]

/-- Chunk `k` of `chunk_text` is the window starting at token `k * 900`. -/
theorem chunk_text_get?_eq (text url title : String) (k : Nat) :
    (chunk_text text url title).get? k
      = if k < ((splitWords text).length + 899) / 900 then
          some (chunkAt 1000 (splitWords text) url title k (k * 900))
        else none := by
  have hsub : ∀ m : Nat, m + (1000 - 100) - 1 = m + 899 := fun m => by omega
  have h900 : (1000 : Nat) - 100 = 900 := rfl
  rw [chunk_text, chunkTextAux, chunkTextGo_get?, pyRange_get?, hsub, h900]
  by_cases h : k < ((splitWords text).length + 899) / 900
  · rw [if_pos h, if_pos h, Option.map_some']
    simp
  · rw [if_neg h, if_neg h, Option.map_none']

/- ------------------------------------------------------------------
C6: the window/overlap contract of chunk_text (amended)
------------------------------------------------------------------ -/

/-- C6 (amended): for every text, `chunk_text` tokenizes on whitespace and
produces one chunk per start position `0, 900, 1800, …` below the token
count (`ceil(tokens / 900)` chunks); chunk `k` (0-based) contains exactly
the tokens `[900k, 900k + 1000)` clipped to the end of the token list and
carries summary `"Part {k+1} of {title}"` — so a window is shorter than
1000 tokens exactly when it overruns the end of the text, and more than one
window may be shorter (not only the final one); empty text yields an empty
sequence without error. -/
theorem chunk_text_window_spec (text url title : String) :
    ((chunk_text text url title).length = ((splitWords text).length + 899) / 900)
    ∧ (∀ k, (chunk_text text url title).get? k
        = if k < ((splitWords text).length + 899) / 900 then
            some { url := url, title := title,
                   summary := "Part " ++ toString (k + 1) ++ " of " ++ title,
                   content := joinSpace (((splitWords text).drop (k * 900)).take 1000),
                   embedding := none }
          else none)
    ∧ (splitWords text = [] → chunk_text text url title = []) := by
  refine ⟨chunk_text_length_eq text url title, fun k => ?_, fun h => ?_⟩
  · rw [chunk_text_get?_eq]
    rfl
  · have hl := chunk_text_length_eq text url title
    rw [h] at hl
    norm_num at hl
    exact hl

/-- Witness for C6: the degenerate case — empty text yields no chunks. -/
theorem chunk_text_window_spec_witness :
    chunk_text "" "u" "t" = [] :=
  (chunk_text_window_spec "" "u" "t").2.2 rfl

/-- Counterexample for C6 as originally stated: on a 950-word text (defaults
`chunkSize = 1000`, advance 900) `chunk_text` yields two windows of 950 and
50 tokens: the FIRST (non-final) window is shorter than `chunkSize`, and the
two consecutive windows share 50 tokens, not `overlap = 100`. -/
theorem chunk_text_nonfinal_short_window :
    (chunk_text (joinSpace (List.replicate 950 "w")) "u" "T").length = 2
    ∧ ((chunk_text (joinSpace (List.replicate 950 "w")) "u" "T").get? 0).map
        (fun c => (splitWords c.content).length) = some 950
    ∧ ((chunk_text (joinSpace (List.replicate 950 "w")) "u" "T").get? 1).map
        (fun c => (splitWords c.content).length) = some 50 := by
  have h950 := splitWords_joinSpace_replicate 949
  norm_num at h950
  have h50 := splitWords_joinSpace_replicate 49
  norm_num at h50
  have hcnt : ((List.replicate 950 "w" : List String).length + 899) / 900 = 2 := by
    rw [List.length_replicate]
  refine ⟨?_, ?_, ?_⟩
  · rw [chunk_text_length_eq, h950, hcnt]
  · rw [chunk_text_get?_eq, h950, hcnt, if_pos (by norm_num), Option.map_some']
    show some ((splitWords (joinSpace (((List.replicate 950 "w").drop 0).take 1000))).length)
        = some 950
    rw [List.drop_zero, List.take_replicate]
    norm_num [h950]
  · rw [chunk_text_get?_eq, h950, hcnt, if_pos (by norm_num), Option.map_some']
    show some ((splitWords (joinSpace (((List.replicate 950 "w").drop 900).take 1000))).length)
        = some 50
    rw [List.drop_replicate, List.take_replicate]
    norm_num [h50]

/- ------------------------------------------------------------------
C3: the chunkSize=4 / overlap=2 scenario (amended)
------------------------------------------------------------------ -/

/-- Counterexample for C3 as stated: splitting `"a b c d e f g h i j"` with
`chunkSize = 4`, `overlap = 2` yields FIVE chunks, not four — the loop over
`range(0, 10, 2)` also starts a window at token 8, producing a trailing
chunk `"i j"`. -/
theorem chunk_scenario_five_chunks :
    (chunkTextAux 4 2 (splitWords "a b c d e f g h i j") "u" "T").length = 5
    ∧ (chunkTextAux 4 2 (splitWords "a b c d e f g h i j") "u" "T").map
        ProcessedChunk.content
      ≠ ["a b c d", "c d e f", "e f g h", "g h i j"] := by
  exact ⟨rfl, by decide⟩

/-- C3 (amended): splitting `"a b c d e f g h i j"` with `chunkSize = 4`,
`overlap = 2` yields exactly the five chunks `"a b c d"`, `"c d e f"`,
`"e f g h"`, `"g h i j"`, `"i j"` in that order, with summaries
`"Part 1 of T"` through `"Part 5 of T"`. -/
theorem chunk_scenario_amended :
    chunkTextAux 4 2 (splitWords "a b c d e f g h i j") "u" "T"
      = [⟨"u", "T", "Part 1 of T", "a b c d", none⟩,
         ⟨"u", "T", "Part 2 of T", "c d e f", none⟩,
         ⟨"u", "T", "Part 3 of T", "e f g h", none⟩,
         ⟨"u", "T", "Part 4 of T", "g h i j", none⟩,
         ⟨"u", "T", "Part 5 of T", "i j", none⟩] := by
  decide

/- ------------------------------------------------------------------
C7: insert_chunk embedding / persistence contract (amended)
------------------------------------------------------------------ -/

/-- Counterexample for C7 as stated: a chunk whose `embedding` field is SET
to the empty vector (`some []`, not unset) still triggers an embedding
request, because the source guard is Python truthiness
(`if not chunk.embedding`), not an is-None test. -/
theorem insert_chunk_empty_embedding_requests :
    (insert_chunk (fun _ => Except.ok [1])
        { url := "u", title := "t", summary := "s", content := "c",
          embedding := some [] }).embedCalls = ["c"]
    ∧ (some ([] : Vec)) ≠ (none : Option Vec) := by
  exact ⟨rfl, by simp⟩

/-- C7 (amended): `insert_chunk` requests an embedding of `chunk.content`
from the embedding collaborator exactly when `chunk.embedding` is unset OR
empty (Python-falsy); if that call fails, the failure propagates and no
store write is issued; on normal return exactly one store write is issued
and the persisted record's `embedding` field is populated (non-null). -/
theorem insert_chunk_spec (emb : String → Except String Vec)
    (chunk : ProcessedChunk) :
    ((insert_chunk emb chunk).embedCalls
      = if chunk.embedding = none ∨ chunk.embedding = some [] then [chunk.content] else [])
    ∧ (∀ e, (chunk.embedding = none ∨ chunk.embedding = some []) →
        emb chunk.content = .error e →
        (insert_chunk emb chunk).outcome = .error e
        ∧ (insert_chunk emb chunk).writes = [])
    ∧ ((insert_chunk emb chunk).outcome = .ok () →
        (insert_chunk emb chunk).writes.length = 1
        ∧ ∀ r ∈ (insert_chunk emb chunk).writes, r.embedding ≠ none) := by
  rcases hemb : chunk.embedding with _ | v
  · rcases hr : emb chunk.content with e | v'
    · refine ⟨?_, ?_, ?_⟩
      · simp [insert_chunk, hemb, pyTruthyVec, hr]
      · intro e' _ hr'
        cases hr'
        constructor <;> simp [insert_chunk, hemb, pyTruthyVec, hr]
      · intro hok
        simp [insert_chunk, hemb, pyTruthyVec, hr] at hok
    · refine ⟨?_, ?_, ?_⟩
      · simp [insert_chunk, hemb, pyTruthyVec, hr]
      · intro e' _ hr'
        cases hr'
      · intro _
        constructor <;> simp [insert_chunk, hemb, pyTruthyVec, hr, siteRecordOf]
  · rcases v with _ | ⟨a, as⟩
    · rcases hr : emb chunk.content with e | v'
      · refine ⟨?_, ?_, ?_⟩
        · simp [insert_chunk, hemb, pyTruthyVec, hr]
        · intro e' _ hr'
          cases hr'
          constructor <;> simp [insert_chunk, hemb, pyTruthyVec, hr]
        · intro hok
          simp [insert_chunk, hemb, pyTruthyVec, hr] at hok
      · refine ⟨?_, ?_, ?_⟩
        · simp [insert_chunk, hemb, pyTruthyVec, hr]
        · intro e' _ hr'
          cases hr'
        · intro _
          constructor <;> simp [insert_chunk, hemb, pyTruthyVec, hr, siteRecordOf]
    · refine ⟨?_, ?_, ?_⟩
      · simp [insert_chunk, hemb, pyTruthyVec]
      · intro e' habs _
        simp at habs
      · intro _
        constructor <;> simp [insert_chunk, hemb, pyTruthyVec, siteRecordOf]

/-- Witness for C7: unset embedding plus a failing collaborator propagates
the error and issues no store write. -/
theorem insert_chunk_spec_witness :
    (insert_chunk (fun _ => Except.error "down")
        { url := "u", title := "t", summary := "s", content := "c" }).outcome
      = Except.error "down"
    ∧ (insert_chunk (fun _ => Except.error "down")
        { url := "u", title := "t", summary := "s", content := "c" }).writes = [] :=
  (insert_chunk_spec (fun _ => Except.error "down")
    { url := "u", title := "t", summary := "s", content := "c" }).2.1
    "down" (Or.inl rfl) rfl
